import Mathlib

/-!
Verification of the "Extravagant Pet Shop" backend (`src/main.py`).

The repository under `src/` contains the single FastAPI application file
`main.py`.  Its collaborators `database.py` (`db`, `create_document`,
`get_documents`) and `schemas.py` (`Product`) are repository modules that are
not under `src/`; those are modelled from the specification (see the doc
comments starting with "Modelled from the spec:").  Everything else is a
direct shallow embedding of `main.py`.

The storage backend is modelled as the list of documents of the single
`"product"` collection, threaded explicitly through the handlers, together
with an error oracle `storeFail : Option String`: `none` means the backend is
healthy, `some e` means every storage round-trip raises an exception with
message `e`.
-/

namespace PetShop

/-- Case-insensitive prefix test on character lists (helper for the
case-insensitive substring semantics of the search filter). -/
def hasPref : List Char → List Char → Bool
  | [], _ => true
  | _ :: _, [] => false
  | a :: as, b :: bs => a == b && hasPref as bs

/-- `hasSub n h` holds when `n` occurs as a contiguous sublist of `h`. -/
def hasSub (n : List Char) : List Char → Bool
  | [] => hasPref n []
  | c :: t => hasPref n (c :: t) || hasSub n t

/-- Lower-casing of a character list (ASCII case folding, as Python's
case-insensitive regex option applies to these ASCII queries). -/
def lowerChars (cs : List Char) : List Char :=
  cs.map Char.toLower

/-- Case-insensitive substring containment on strings. -/
def ciContains (hay needle : String) : Bool :=
  hasSub (lowerChars needle.data) (lowerChars hay.data)

/-- A stored document of the `"product"` collection.  Documents are free-form
key-value mappings (spec §4.3); every field the code may touch is therefore
optional, `none` meaning the key is absent. -/
structure Doc where
  idField : Option String := none
  title : Option String := none
  price : Option Rat := none
  category : Option String := none
  description : Option String := none
  image_url : Option String := none
  animal : Option String := none
  colors : Option (List String) := none
  rating : Option Rat := none
  tags : Option (List String) := none
  in_stock : Option Bool := none
deriving DecidableEq

/-- The filter dictionary built by `list_products` (`main.py` lines 69-78):
an optional `"animal"` equality entry and an optional `"$or"` entry holding
the free-text query. -/
structure Filter where
  animal : Option String := none
  qOr : Option String := none
deriving DecidableEq

/-- Python truthiness of an optional string parameter (`if animal:` /
`if q:` in `main.py`): `None` and the empty string are falsy. -/
def truthy : Option String → Bool
  | none => false
  | some s => s != ""

/-- Case-insensitive containment applied to an optional field: an absent
field never matches. -/
def optCi (q : String) : Option String → Bool
  | none => false
  | some s => ciContains s q

/-- Modelled from the spec: evaluation of a filter dictionary by the storage
backend (§4.1/§4.3).  The `animal` entry restricts to documents whose
`animal` field equals it; the `$or` entry restricts to documents whose
`title`, `description`, or `tags` case-insensitively contain the query as a
substring (logical OR across the three fields, any element for `tags`),
conjoined with the `animal` entry. -/
def docMatches (f : Filter) (d : Doc) : Bool :=
  (match f.animal with
   | none => true
   | some a => d.animal == some a) &&
  (match f.qOr with
   | none => true
   | some q =>
       optCi q d.title || optCi q d.description ||
       (match d.tags with
        | none => false
        | some ts => ts.any (fun t => ciContains t q)))

/-- Modelled from the spec: `database.get_documents(collection, filter,
limit)` (§4.3) returns the matching records in stored order, truncated to
`limit`; it fails, propagating to the caller, when the backend raises. -/
def get_documents (docs : List Doc) (f : Filter) (limit : Nat)
    (storeFail : Option String) : Except String (List Doc) :=
  match storeFail with
  | some e => .error e
  | none => .ok ((docs.filter (fun d => docMatches f d)).take limit)

/-- The identifier coercion `str(it.get("_id"))` of `main.py` line 83:
Python's `dict.get` yields `None` for an absent key and `str(None)` is the
string `"None"`. -/
def pyStrOfOpt : Option String → String
  | none => "None"
  | some s => s

/-- The per-item mutation of `main.py` lines 82-83: overwrite `_id` with its
string coercion. -/
def setId (d : Doc) : Doc :=
  { d with idField := some (pyStrOfOpt d.idField) }

/-- Response of `GET /api/products`. -/
inductive ListResp where
  | ok (items : List Doc)
  | err (status : Nat) (detail : String)
deriving DecidableEq

/-- The items of a list response, empty on error. -/
def ListResp.itemsD : ListResp → List Doc
  | .ok items => items
  | .err _ _ => []

/-- The filter dictionary construction of `main.py` lines 69-78. -/
def mkFilter (animal q : Option String) : Filter :=
  let f : Filter := {}
  let f := if truthy animal then { f with animal := animal } else f
  if truthy q then { f with qOr := q } else f

/-- `GET /api/products` (`main.py` lines 66-86): build the filter dictionary,
query the backend with `limit=100`, coerce each `_id` to a string; a storage
exception is caught and re-raised as HTTP 500 with the error text. -/
def list_products (docs : List Doc) (storeFail : Option String)
    (animal q : Option String) : ListResp :=
  let filter_dict := mkFilter animal q
  match get_documents docs filter_dict 100 storeFail with
  | .ok items => .ok (items.map setId)
  | .error e => .err 500 e

/-- The request-body fields of `POST /api/products`, each possibly absent.
Prices and ratings are decimal literals in the source; they are embedded as
exact rationals. -/
structure Payload where
  title : Option String := none
  price : Option Rat := none
  category : Option String := none
  description : Option String := none
  image_url : Option String := none
  animal : Option String := none
  colors : Option (List String) := none
  rating : Option Rat := none
  tags : Option (List String) := none
  in_stock : Option Bool := none
deriving DecidableEq

/-- The pydantic model `ProductCreate` (`main.py` lines 54-64) after
validation: `title`, `price`, `category` required, the rest defaulted. -/
structure ProductCreate where
  title : String
  price : Rat
  category : String
  description : Option String := none
  image_url : Option String := none
  animal : Option String := none
  colors : List String := []
  rating : Rat := mkRat 45 10
  tags : List String := []
  in_stock : Bool := true
deriving DecidableEq

/-- Validation of a request body against `ProductCreate` (`main.py` lines
54-64): `title`, `price` and `category` are required; `description`,
`image_url` and `animal` default to `None`; `colors` and `tags` default to
the empty list, `rating` to `4.5`, `in_stock` to `true`. -/
def parseProductCreate (p : Payload) : Except String ProductCreate :=
  match p.title, p.price, p.category with
  | none, _, _ => .error "Field required: title"
  | _, none, _ => .error "Field required: price"
  | _, _, none => .error "Field required: category"
  | some t, some pr, some c =>
      .ok { title := t, price := pr, category := c,
            description := p.description, image_url := p.image_url,
            animal := p.animal, colors := p.colors.getD [],
            rating := p.rating.getD (mkRat 45 10), tags := p.tags.getD [],
            in_stock := p.in_stock.getD true }

/-- The canonical stored Product shape (spec §3). -/
structure Product where
  title : String
  price : Rat
  category : String
  description : Option String
  image_url : Option String
  animal : Option String
  colors : List String
  rating : Rat
  tags : List String
  in_stock : Bool
deriving DecidableEq

/-- Modelled from the spec: `schemas.Product`, the canonical Product shape
(§3), the authoritative validation gate of §4.2.  `title` must be non-empty
text and `price` a non-negative amount; the remaining fields carry the stated
defaults (already applied by `ProductCreate`).  Validation failure raises,
which the handler turns into HTTP 400. -/
def mkProduct (pc : ProductCreate) : Except String Product :=
  if pc.title = "" then .error "title must be a non-empty string"
  else if pc.price < 0 then .error "price must be non-negative"
  else .ok { title := pc.title, price := pc.price, category := pc.category,
             description := pc.description, image_url := pc.image_url,
             animal := pc.animal, colors := pc.colors, rating := pc.rating,
             tags := pc.tags, in_stock := pc.in_stock }

/-- The stored document produced by inserting a validated Product under a
backend-assigned identifier. -/
def prodToDoc (id : String) (p : Product) : Doc :=
  { idField := some id, title := some p.title, price := some p.price,
    category := some p.category, description := p.description,
    image_url := p.image_url, animal := p.animal, colors := some p.colors,
    rating := some p.rating, tags := some p.tags,
    in_stock := some p.in_stock }

/-- Modelled from the spec: `database.create_document(collection, record)`
(§4.3) inserts one record into the collection and returns the
backend-assigned identifier; it fails, propagating to the caller, when the
backend raises.  The opaque identifier is modelled as the decimal rendering
of the collection size at insertion time. -/
def create_document (docs : List Doc) (p : Product)
    (storeFail : Option String) : Except String (String × List Doc) :=
  match storeFail with
  | some e => .error e
  | none =>
      let newId := toString docs.length
      .ok (newId, docs ++ [prodToDoc newId p])

/-- Response of `POST /api/products`. -/
inductive CreateResp where
  | created (id : String)
  | err (status : Nat) (detail : String)
deriving DecidableEq

/-- The handler of `POST /api/products` (`main.py` lines 88-96): re-validate
the payload against `Product`, insert, return the new identifier (HTTP 201);
ANY exception — validation failure or storage failure alike — is caught by
the single `except` clause and re-raised as HTTP 400 with the error text. -/
def create_product (docs : List Doc) (storeFail : Option String)
    (payload : ProductCreate) : CreateResp × List Doc :=
  match mkProduct payload with
  | .error e => (.err 400 e, docs)
  | .ok prod =>
      match create_document docs prod storeFail with
      | .error e => (.err 400 e, docs)
      | .ok (new_id, docs') => (.created new_id, docs')

/-- The full `POST /api/products` pipeline: FastAPI first validates the
request body against `ProductCreate` (`payload: ProductCreate` in the
handler signature) and rejects an invalid body with HTTP 422 Unprocessable
Entity — the framework's fixed status for request-validation errors — before
the handler body ever runs; only a body that parses reaches
`create_product`. -/
def postProductsEndpoint (docs : List Doc) (storeFail : Option String)
    (p : Payload) : CreateResp × List Doc :=
  match parseProductCreate p with
  | .error e => (.err 422 e, docs)
  | .ok pc => create_product docs storeFail pc

/-- Response of `POST /api/seed`. -/
inductive SeedResp where
  | ok (inserted : Nat)
  | skipped (message : String)
  | err (status : Nat) (detail : String)
deriving DecidableEq

/-- The five demonstration products of `main.py` lines 106-167. -/
def demo_products : List ProductCreate :=
  [ { title := "Neon Glow Collar", price := mkRat 2999 100, category := "Accessories",
      description := some "Rechargeable LED collar with rave-mode for night walks.",
      image_url := some "https://images.unsplash.com/photo-1543466835-00a7907e9de1?q=80&w=1200&auto=format&fit=crop",
      animal := some "dogs", colors := ["neon-pink", "electric-blue", "lime"],
      rating := mkRat 47 10, tags := ["neon", "glow", "night"], in_stock := true },
    { title := "Catnip Disco Ball", price := mkRat 185 10, category := "Toys",
      description := some "Sparkly orb that scatters rainbow reflections across the room.",
      image_url := some "https://images.unsplash.com/photo-1543852786-1cf6624b9987?q=80&w=1200&auto=format&fit=crop",
      animal := some "cats", colors := ["holographic", "silver"],
      rating := mkRat 46 10, tags := ["disco", "sparkle"], in_stock := true },
    { title := "Tropical Reef Palace", price := mkRat 89 1, category := "Aquarium",
      description := some "A vibrant coral-themed habitat with neon accents.",
      image_url := some "https://images.unsplash.com/photo-1518837695005-2083093ee35b?q=80&w=1200&auto=format&fit=crop",
      animal := some "fish", colors := ["coral", "aqua", "purple"],
      rating := mkRat 48 10, tags := ["reef", "aquatic", "premium"], in_stock := true },
    { title := "Feather Carnival Wand", price := mkRat 1299 100, category := "Toys",
      description := some "Rainbow plume teaser for cats with bells and glitter ribbon.",
      image_url := some "https://images.unsplash.com/photo-1592194996308-7b43878e84a6?q=80&w=1200&auto=format&fit=crop",
      animal := some "cats", colors := ["rainbow", "gold"],
      rating := mkRat 44 10, tags := ["play", "rainbow"], in_stock := true },
    { title := "Birdie Neon Gym", price := mkRat 54 1, category := "Cages",
      description := some "Modular perch system with colorful beads and swings.",
      image_url := some "https://images.unsplash.com/photo-1535850836387-0f9dfce30846?q=80&w=1200&auto=format&fit=crop",
      animal := some "birds", colors := ["neon-orange", "teal"],
      rating := mkRat 45 10, tags := ["gym", "beads"], in_stock := true } ]

/-- The insertion loop of `main.py` lines 169-173: validate and insert each
demo product in order, counting insertions; an exception aborts the loop,
leaving the documents inserted so far in place. -/
def seedLoop (storeFail : Option String) :
    List Doc → Nat → List ProductCreate → Except String Nat × List Doc
  | docs, n, [] => (.ok n, docs)
  | docs, n, pc :: rest =>
      match mkProduct pc with
      | .error e => (.error e, docs)
      | .ok prod =>
          match create_document docs prod storeFail with
          | .error e => (.error e, docs)
          | .ok (_, docs') => seedLoop storeFail docs' (n + 1) rest

/-- `POST /api/seed` (`main.py` lines 98-177): if any product exists (probe
with `limit=1`), return a skipped status without touching the data;
otherwise insert the five demo products and return the count; any exception
is re-raised as HTTP 500 with the error text. -/
def seed_products (docs : List Doc) (storeFail : Option String) :
    SeedResp × List Doc :=
  match get_documents docs {} 1 storeFail with
  | .error e => (.err 500 e, docs)
  | .ok existing =>
      if existing.isEmpty then
        match seedLoop storeFail docs 0 demo_products with
        | (.ok n, docs') => (.ok n, docs')
        | (.error e, docs') => (.err 500 e, docs')
      else
        (.skipped "Products already exist", docs)

/-- Response of `GET /`. -/
structure RootResp where
  status : Nat
  message : String
deriving DecidableEq

/-- `GET /` (`main.py` lines 20-22): a fixed liveness payload.  The handler
takes the storage state and error oracle only to state that it ignores
both. -/
def read_root (docs : List Doc) (_storeFail : Option String) :
    RootResp × List Doc :=
  (⟨200, "Extravagant Pet Shop Backend is live!"⟩, docs)

/-- Modelled from the spec: the observable state of the lazily-initialized
storage handle `database.db` (§4.4) as `GET /test` can encounter it: the in-
handler import itself may raise, the handle may be unset (`None`), or it may be a
connected handle carrying an optional `name` attribute, the presence of the
connection-string environment variable, and a collection-listing operation
that either returns the collection names or raises. -/
inductive DbState where
  | importError (msg : String)
  | dbNone
  | connected (name : Option String) (envSet : Bool)
      (colls : Except String (List String))

/-- Response of `GET /test`. -/
structure DiagResp where
  backend : String
  database : String
  database_url : Option String
  database_name : Option String
  connection_status : String
  collections : List String
deriving DecidableEq

/-- `GET /test` (`main.py` lines 24-51): build the default diagnostic object,
then refine it according to the state of the storage handle; every exception
is caught and folded into the `database` status string (truncated to 80
characters), and the collection list is capped at 10 entries. -/
def test_database (s : DbState) : DiagResp :=
  let response : DiagResp :=
    { backend := "✅ Running", database := "❌ Not Available",
      database_url := none, database_name := none,
      connection_status := "Not Connected", collections := [] }
  match s with
  | .importError e => { response with database := "❌ Error: " ++ e.take 80 }
  | .dbNone => { response with database := "⚠️ Available but not initialized" }
  | .connected name envSet colls =>
      let response :=
        { response with
          database := "✅ Available",
          database_url := some (if envSet then "✅ Set" else "❌ Not Set"),
          database_name := some (name.getD "✅ Connected"),
          connection_status := "Connected" }
      match colls with
      | .ok cs =>
          { response with collections := cs.take 10,
                          database := "✅ Connected & Working" }
      | .error e =>
          { response with database := "⚠️ Connected but Error: " ++ e.take 80 }

/-! ## General lemmas about the embedded handlers -/

/-- On a healthy backend, `GET /api/products` returns the matching documents,
truncated to 100, with identifiers coerced. -/
lemma list_products_ok_eq (docs : List Doc) (a q : Option String) :
    list_products docs none a q =
      .ok (((docs.filter (fun d => docMatches (mkFilter a q) d)).take 100).map setId) :=
  rfl

/-- On a failing backend, `GET /api/products` responds with HTTP 500 and the
error text. -/
lemma list_products_fail_eq (docs : List Doc) (e : String) (a q : Option String) :
    list_products docs (some e) a q = .err 500 e :=
  rfl

/-- The filter dictionary holds exactly the truthy parameters. -/
lemma mkFilter_eq (a q : Option String) :
    mkFilter a q = ⟨if truthy a then a else none, if truthy q then q else none⟩ := by
  simp only [mkFilter]
  split <;> split <;> rfl

/-- The identifier coercion leaves the `animal` field unchanged. -/
lemma setId_animal (d : Doc) : (setId d).animal = d.animal := rfl

/-- The empty filter dictionary matches every document. -/
lemma docMatches_empty (d : Doc) : docMatches {} d = true := rfl

/-! ## The claims -/

/-- C4: for every storage state and parameter combination, a successful
`GET /api/products` returns at most 100 items. -/
theorem claimC4 : ∀ (docs : List Doc) (sf : Option String) (a q : Option String)
    (its : List Doc), list_products docs sf a q = .ok its → its.length ≤ 100 := by
  intro docs sf a q its h
  cases sf with
  | some e => rw [list_products_fail_eq] at h; cases h
  | none =>
      rw [list_products_ok_eq] at h
      injection h with h2
      subst h2
      simp only [List.length_map, List.length_take]
      omega

/-- Witness for C4 at a concrete two-document store. -/
theorem claimC4_witness :
    (([({ title := some "Neon Glow Collar" } : Doc),
       ({ idField := some "a", animal := some "cats" } : Doc)].map setId).length ≤ 100) :=
  claimC4 [{ title := some "Neon Glow Collar" },
           { idField := some "a", animal := some "cats" }] none none none _ rfl

/-- C5: with a non-empty `animal` parameter, every record a successful
`GET /api/products` returns has its `animal` field exactly equal to the
parameter; records with a different or absent `animal` field never appear. -/
theorem claimC5 : ∀ (docs : List Doc) (sf : Option String) (a : String)
    (q : Option String) (its : List Doc), a ≠ "" →
    list_products docs sf (some a) q = .ok its →
    ∀ x ∈ its, x.animal = some a := by
  intro docs sf a q its ha h x hx
  cases sf with
  | some e => rw [list_products_fail_eq] at h; cases h
  | none =>
      rw [list_products_ok_eq] at h
      injection h with h2
      subst h2
      obtain ⟨d, hd, rfl⟩ := List.mem_map.mp hx
      have hdm := (List.mem_filter.mp (List.mem_of_mem_take hd)).2
      rw [mkFilter_eq] at hdm
      have hta : truthy (some a) = true := by simp [truthy, ha]
      rw [hta] at hdm
      simp only [if_true, docMatches, Bool.and_eq_true, beq_iff_eq] at hdm
      rw [setId_animal]
      exact hdm.1

/-- Witness for C5: filtering a two-animal store for cats keeps the cat
record with its `animal` field intact. -/
theorem claimC5_witness :
    (setId ({ title := some "Catnip Disco Ball", animal := some "cats" } : Doc)).animal =
      some "cats" :=
  claimC5 [{ title := some "Catnip Disco Ball", animal := some "cats" },
           { title := some "Neon Glow Collar", animal := some "dogs" }]
    none "cats" none _ (by decide) rfl
    (setId { title := some "Catnip Disco Ball", animal := some "cats" }) (by decide)

/-- C7: `GET /test` answers with a diagnostic object in every backend state —
no exception propagates as an HTTP error — and the reported collection list
never exceeds 10 entries. -/
theorem claimC7 : ∀ s : DbState,
    (test_database s).backend = "✅ Running" ∧
    (test_database s).collections.length ≤ 10 := by
  intro s
  cases s with
  | importError e => exact ⟨rfl, by simp [test_database]⟩
  | dbNone => exact ⟨rfl, by simp [test_database]⟩
  | connected name envSet colls =>
      cases colls with
      | ok cs =>
          refine ⟨rfl, ?_⟩
          simp only [test_database, List.length_take]
          omega
      | error e => exact ⟨rfl, by simp [test_database]⟩

/-- C8: `GET /` returns the same fixed HTTP-200 response with a non-empty
message for every storage state and backend-error oracle, and leaves the
storage state unchanged. -/
theorem claimC8 : ∀ (docs : List Doc) (sf : Option String),
    read_root docs sf =
      ({ status := 200, message := "Extravagant Pet Shop Backend is live!" }, docs) ∧
    "Extravagant Pet Shop Backend is live!" ≠ "" :=
  fun _ _ => ⟨rfl, by decide⟩

/-- C9: supplying `animal` or `q` as the empty string is indistinguishable
from omitting the parameter: the empty string is falsy, so no filter entry is
added. -/
theorem claimC9 : ∀ (docs : List Doc) (sf : Option String) (a q : Option String),
    list_products docs sf (some "") q = list_products docs sf none q ∧
    list_products docs sf a (some "") = list_products docs sf a none :=
  fun _ _ _ _ => ⟨rfl, rfl⟩

/-- C10: every item of a successful `GET /api/products` response is a stored
document with its `_id` coerced to a string; a stored document with no `_id`
field comes back with `_id` equal to the string `"None"`. -/
theorem claimC10 : ∀ (docs : List Doc) (sf : Option String) (a q : Option String)
    (its : List Doc), list_products docs sf a q = .ok its →
    ∀ x ∈ its, ∃ d, d ∈ docs ∧ x = setId d ∧
      x.idField = some (pyStrOfOpt d.idField) ∧
      (d.idField = none → x.idField = some "None") := by
  intro docs sf a q its h x hx
  cases sf with
  | some e => rw [list_products_fail_eq] at h; cases h
  | none =>
      rw [list_products_ok_eq] at h
      injection h with h2
      subst h2
      obtain ⟨d, hd, rfl⟩ := List.mem_map.mp hx
      refine ⟨d, (List.mem_filter.mp (List.mem_of_mem_take hd)).1, rfl, rfl, ?_⟩
      intro hnone
      simp [setId, hnone, pyStrOfOpt]

/-- Witness for C10 at a store holding one document without an `_id`. -/
theorem claimC10_witness :
    ∃ d, d ∈ [({ title := some "Neon Glow Collar" } : Doc)] ∧
      setId { title := some "Neon Glow Collar" } = setId d ∧
      (setId ({ title := some "Neon Glow Collar" } : Doc)).idField =
        some (pyStrOfOpt d.idField) ∧
      (d.idField = none →
        (setId ({ title := some "Neon Glow Collar" } : Doc)).idField = some "None") :=
  claimC10 [{ title := some "Neon Glow Collar" }] none none none _ rfl
    (setId { title := some "Neon Glow Collar" }) (by decide)

/-- A creation payload lacking the required `title` field. -/
def payloadMissingTitle : Payload :=
  { price := some (mkRat 999 100), category := some "Toys" }

/-- A creation payload that passes both validation layers. -/
def pcValid : ProductCreate :=
  { title := "Neon Glow Collar", price := mkRat 2999 100, category := "Accessories" }

/-- The product `pcValid` validates to. -/
def prodValid : Product :=
  { title := "Neon Glow Collar", price := mkRat 2999 100, category := "Accessories",
    description := none, image_url := none, animal := none, colors := [],
    rating := mkRat 45 10, tags := [], in_stock := true }

/-- C1 counterexample: a payload missing `title` is rejected by the
framework's body validation with HTTP 422, not 400 as claimed (no document is
inserted either way). -/
theorem claimC1_cex :
    postProductsEndpoint [] none payloadMissingTitle =
      (.err 422 "Field required: title", []) ∧ (422 : Nat) ≠ 400 := by
  decide

/-- C1 (amended): a creation payload missing `title`, `price`, or `category`
never reaches the handler — the request body fails `ProductCreate` validation
and the framework rejects it with HTTP 422 and the validation error text; no
document is inserted, whatever the storage state. -/
theorem claimC1 : ∀ (docs : List Doc) (sf : Option String) (p : Payload),
    p.title = none ∨ p.price = none ∨ p.category = none →
    ∃ e, postProductsEndpoint docs sf p = (.err 422 e, docs) := by
  intro docs sf p h
  cases hp : p.title with
  | none =>
      exact ⟨"Field required: title",
        by simp [postProductsEndpoint, parseProductCreate, hp]⟩
  | some t =>
      cases hpr : p.price with
      | none =>
          exact ⟨"Field required: price",
            by simp [postProductsEndpoint, parseProductCreate, hp, hpr]⟩
      | some pr =>
          cases hc : p.category with
          | none =>
              exact ⟨"Field required: category",
                by simp [postProductsEndpoint, parseProductCreate, hp, hpr, hc]⟩
          | some c => simp_all

/-- Witness for C1 at the concrete title-less payload. -/
theorem claimC1_witness :
    ∃ e, postProductsEndpoint [] none payloadMissingTitle = (.err 422 e, []) :=
  claimC1 [] none payloadMissingTitle (Or.inl rfl)

/-- C3: seeding an empty collection inserts exactly the five demo records, in
order, and reports `ok`/5; seeding a non-empty collection reports `skipped`
and leaves the stored data unchanged. -/
theorem claimC3 :
    (seed_products [] none).1 = .ok 5 ∧
    (seed_products [] none).2.map (fun d => d.title) =
      [some "Neon Glow Collar", some "Catnip Disco Ball",
       some "Tropical Reef Palace", some "Feather Carnival Wand",
       some "Birdie Neon Gym"] ∧
    (seed_products [] none).2.length = 5 ∧
    ∀ docs : List Doc, docs ≠ [] →
      seed_products docs none = (.skipped "Products already exist", docs) := by
  refine ⟨by decide, by decide, by decide, ?_⟩
  intro docs h
  cases docs with
  | nil => exact absurd rfl h
  | cons d t => simp [seed_products, get_documents, docMatches_empty]

/-- Witness for C3's skip branch at a one-document store. -/
theorem claimC3_witness :
    seed_products [({ title := some "Tropical Reef Palace" } : Doc)] none =
      (.skipped "Products already exist", [{ title := some "Tropical Reef Palace" }]) :=
  claimC3.2.2.2 [{ title := some "Tropical Reef Palace" }] (by decide)

/-- C6 counterexample: a storage failure during `POST /api/products` is
surfaced as HTTP 400 — the handler's catch-all — not 500 as claimed. -/
theorem claimC6_cex :
    create_product [] (some "connection lost") pcValid =
      (.err 400 "connection lost", []) ∧ (400 : Nat) ≠ 500 := by
  decide

/-- C6 (amended): a storage error is surfaced on the same request with the
error message — as HTTP 500 by `GET /api/products` and `POST /api/seed`, but
as HTTP 400 by `POST /api/products`, whose single `except` clause maps every
exception, storage errors included, to 400. -/
theorem claimC6 : ∀ (docs : List Doc) (e : String) (a q : Option String)
    (pc : ProductCreate) (prod : Product), mkProduct pc = .ok prod →
    list_products docs (some e) a q = .err 500 e ∧
    seed_products docs (some e) = (.err 500 e, docs) ∧
    create_product docs (some e) pc = (.err 400 e, docs) := by
  intro docs e a q pc prod hpc
  refine ⟨rfl, rfl, ?_⟩
  simp [create_product, hpc, create_document]

/-- Witness for C6 with a failing backend and a valid payload. -/
theorem claimC6_witness :
    list_products [] (some "connection refused") none none =
      .err 500 "connection refused" ∧
    seed_products [] (some "connection refused") =
      (.err 500 "connection refused", []) ∧
    create_product [] (some "connection refused") pcValid =
      (.err 400 "connection refused", []) :=
  claimC6 [] "connection refused" none none pcValid prodValid rfl

/-- Unfolding of the case-insensitive match on an optional field. -/
lemma optCi_eq_true_iff (q : String) (o : Option String) :
    optCi q o = true ↔ ∃ s, o = some s ∧ ciContains s q = true := by
  cases o <;> simp [optCi]

/-- Unfolding of the case-insensitive match on the optional tag list. -/
lemma tagsCi_eq_true_iff (q : String) (o : Option (List String)) :
    (match o with
     | none => false
     | some ts => ts.any (fun t => ciContains t q)) = true ↔
    ∃ ts, o = some ts ∧ ∃ t ∈ ts, ciContains t q = true := by
  cases o <;> simp [List.any_eq_true]

/-- Filter evaluation only reads fields the identifier coercion preserves:
two documents with the same coerced image match the same filters. -/
lemma docMatches_via_setId {f : Filter} {d d' : Doc}
    (h : setId d' = setId d) : docMatches f d' = docMatches f d := by
  cases d with
  | mk i t p c de im an co ra ta st =>
      cases d' with
      | mk i' t' p' c' de' im' an' co' ra' ta' st' =>
          simp only [setId] at h
          injection h with h1 h2 h3 h4 h5 h6 h7 h8 h9 h10 h11
          subst h2; subst h3; subst h4; subst h5; subst h6
          subst h7; subst h8; subst h9; subst h10; subst h11
          rfl

/-- Characterization of filter evaluation for a non-empty query `q`: the
document matches the built filter dictionary exactly when `title`,
`description`, or one of `tags` case-insensitively contains `q`, and, when a
non-empty `animal` parameter was also given, the `animal` field equals it. -/
lemma docMatches_q_iff (a : Option String) (q : String) (hq : q ≠ "") (d : Doc) :
    docMatches (mkFilter a (some q)) d = true ↔
      ((∃ t, d.title = some t ∧ ciContains t q = true) ∨
       (∃ s, d.description = some s ∧ ciContains s q = true) ∨
       (∃ ts, d.tags = some ts ∧ ∃ t ∈ ts, ciContains t q = true)) ∧
      (∀ a0 : String, a = some a0 → a0 ≠ "" → d.animal = some a0) := by
  rw [mkFilter_eq]
  have hq2 : truthy (some q) = true := by simp [truthy, hq]
  rw [hq2]
  cases a with
  | none =>
      simp only [truthy, if_false, if_true, docMatches, Bool.and_eq_true,
        Bool.or_eq_true, optCi_eq_true_iff, tagsCi_eq_true_iff]
      simp
      exact or_assoc
  | some a0 =>
      by_cases h0 : a0 = ""
      · subst h0
        simp only [truthy, if_true, docMatches, Bool.and_eq_true,
          Bool.or_eq_true, optCi_eq_true_iff, tagsCi_eq_true_iff]
        simp
        exact or_assoc
      · have hta : truthy (some a0) = true := by simp [truthy, h0]
        rw [hta]
        simp only [if_true, docMatches, Bool.and_eq_true, Bool.or_eq_true,
          optCi_eq_true_iff, tagsCi_eq_true_iff, beq_iff_eq]
        constructor
        · rintro ⟨han, hor⟩
          exact ⟨or_assoc.mp hor, fun a1 ha1 _ => by cases ha1; exact han⟩
        · rintro ⟨hor, han⟩
          exact ⟨han a0 rfl h0, or_assoc.mpr hor⟩

/-- A store of 101 distinct documents all matching the query `"neon"`. -/
def manyNeonDocs : List Doc :=
  (List.range 101).map
    (fun i => { idField := some (toString i), title := some "neon" })

/-- The 101st of `manyNeonDocs`. -/
def lateNeonDoc : Doc := { idField := some "100", title := some "neon" }

/-- C2 counterexample: with 101 stored documents whose titles all contain
`"neon"`, the 101st matching document is not returned — the response is
truncated to 100 items — refuting the claimed iff between being returned and
matching. -/
theorem claimC2_cex :
    lateNeonDoc ∈ manyNeonDocs ∧
    optCi "neon" lateNeonDoc.title = true ∧
    setId lateNeonDoc ∉ (list_products manyNeonDocs none none (some "neon")).itemsD ∧
    (list_products manyNeonDocs none none (some "neon")).itemsD.length = 100 := by
  decide

/-- C2 (amended): provided at most 100 stored documents match, a stored
document is returned by `GET /api/products?q=...` (with `q` non-empty) iff
its `title`, `description`, or one of its `tags` case-insensitively contains
`q` as a substring (logical OR), conjoined with the `animal` equality filter
when a non-empty `animal` parameter is also given; in general the response is
truncated to the first 100 matching documents. -/
theorem claimC2 : ∀ (docs : List Doc) (a : Option String) (q : String)
    (its : List Doc) (d : Doc), q ≠ "" →
    (docs.filter (fun x => docMatches (mkFilter a (some q)) x)).length ≤ 100 →
    list_products docs none a (some q) = .ok its →
    d ∈ docs →
    (setId d ∈ its ↔
      ((∃ t, d.title = some t ∧ ciContains t q = true) ∨
       (∃ s, d.description = some s ∧ ciContains s q = true) ∨
       (∃ ts, d.tags = some ts ∧ ∃ t ∈ ts, ciContains t q = true)) ∧
      (∀ a0 : String, a = some a0 → a0 ≠ "" → d.animal = some a0)) := by
  intro docs a q its d hq hcount hok hd
  rw [list_products_ok_eq] at hok
  injection hok with h2
  subst h2
  rw [List.take_of_length_le hcount]
  rw [← docMatches_q_iff a q hq d]
  constructor
  · intro hx
    obtain ⟨d', hd', heq⟩ := List.mem_map.mp hx
    have hm := (List.mem_filter.mp hd').2
    rwa [docMatches_via_setId heq] at hm
  · intro hmatch
    exact List.mem_map_of_mem setId (List.mem_filter.mpr ⟨hd, hmatch⟩)

/-- A two-document store for the C2 witness. -/
def searchDemoDocs : List Doc :=
  [{ title := some "Neon Glow Collar" }, { title := some "Plain Leash" }]

/-- Witness for C2: in a small store, the document titled "Neon Glow Collar"
is returned for the query `"neon"`. -/
theorem claimC2_witness :
    setId ({ title := some "Neon Glow Collar" } : Doc) ∈
      ((searchDemoDocs.filter
          (fun x => docMatches (mkFilter none (some "neon")) x)).take 100).map setId :=
  (claimC2 searchDemoDocs none "neon" _ { title := some "Neon Glow Collar" }
      (by decide) (by decide) rfl (by decide)).mpr
    ⟨Or.inl ⟨"Neon Glow Collar", rfl, by decide⟩, fun a0 h _ => Option.noConfusion h⟩

end PetShop
